import Mathlib

/-!
Verification of the Sync-Player coordination server.

This file gives a shallow embedding, in Lean, of the parts of the server
(`src/unnamed/part_002`, a Node/Express/Socket.io program) that the checked
claims are about: the wall-clock time extrapolator (`consolidateTime`, the
5-second `syncInterval` ticker), the per-room playback state and `Room`
constructor, the `control` socket handler (server mode), the `set-playlist`
handler, the admin-only event middleware, the BSL matcher
(`bsl-folder-selected` auto-match, `bsl-manual-match`, `bsl-set-drift`),
and the CSRF / FFmpeg HTTP route pipeline.

Modelling conventions:
- JS numbers are modelled as `ℚ` (positions, rates, sizes) and wall-clock
  milliseconds (`Date.now()`) as `ℤ`.
- JS `Map`s and plain objects used as dictionaries are modelled as
  association lists; an update replaces any previous binding of the key.
- `undefined` fields of event payloads are modelled with `Option`.
- `io.emit` / `io.to(..).emit` / `socket.emit` calls are collected into an
  explicit list of `Emission` values returned by each handler.
-/

namespace SyncPlayer

/-- Association-list lookup, the model of `map.get(k)` / `obj[k]`. -/
def lookupA {α β : Type} [DecidableEq α] : List (α × β) → α → Option β
  | [], _ => none
  | (a, b) :: t, k => if a = k then some b else lookupA t k

/-- Association-list update, the model of `map.set(k, v)` / `obj[k] = v`:
the new binding replaces any previous binding of the same key. -/
def setA {α β : Type} [DecidableEq α] (l : List (α × β)) (k : α) (v : β) :
    List (α × β) :=
  (k, v) :: l.filter (fun p => p.1 ≠ k)

/-- JS `x || dflt` on an optional string: `undefined` and `""` are falsy. -/
def jsOrStr (x : Option String) (dflt : String) : String :=
  match x with
  | some s => if s = "" then dflt else s
  | none => dflt

/-- JS `x || dflt` on an optional number: `undefined` and `0` are falsy. -/
def jsOrRat (x : Option ℚ) (dflt : ℚ) : ℚ :=
  match x with
  | some s => if s = 0 then dflt else s
  | none => dflt

/-- JS `s.toLowerCase()`, modelled character-wise (the filenames the server
handles are validated to a word-character alphabet, where per-character
lowercasing agrees with JS). -/
def strLower (s : String) : String :=
  String.mk (s.toList.map Char.toLower)

/-- JS `s.startsWith(pre)`. -/
def strStartsWith (s pre : String) : Bool :=
  decide (s.toList.take pre.toList.length = pre.toList)

/-- JS `s.endsWith(suffix)`. -/
def strEndsWith (s sfx : String) : Bool :=
  decide (s.toList.reverse.take sfx.toList.length = sfx.toList.reverse)

/-- JS `s.slice(-n)`: the last `n` characters of `s` (all of `s` if shorter). -/
def takeRight (s : String) (n : ℕ) : String :=
  String.mk (s.toList.drop (s.toList.length - n))

/-- JS `parseInt` applied to a finite number renders it in decimal and reads
the integer part, i.e. truncation toward zero.  (For magnitudes below 1e-6,
JS renders scientific notation and `parseInt` reads the mantissa; the inputs
reaching this operation in the server are validated into `[-60, 60]`, where
the decimal rendering and hence truncation semantics apply to all ordinary
inputs.) -/
def ratTrunc (q : ℚ) : ℤ :=
  if 0 ≤ q then ⌊q⌋ else ⌈q⌉

/-- The per-room playback state (`videoState` in the source): `currentTime`
is the stored position in seconds, `lastUpdate` the wall-clock anchor in
milliseconds. -/
structure VideoState where
  isPlaying : Bool
  currentTime : ℚ
  lastUpdate : ℤ
  audioTrack : ℤ
  subtitleTrack : ℤ
  playbackRate : ℚ
deriving DecidableEq

/-- Source `consolidateTime(state)` (part_002 lines 383-397): if playing,
clamp a future `lastUpdate` back to `now`, fold `elapsed * (playbackRate || 1)`
into `currentTime` when the elapsed time is positive, and reset the anchor;
if paused, only reset the anchor. -/
def consolidateTime (s : VideoState) (now : ℤ) : VideoState :=
  if s.isPlaying then
    let lu : ℤ := if now < s.lastUpdate then now else s.lastUpdate
    let elapsed : ℚ := ((now - lu : ℤ) : ℚ) / 1000
    let ct : ℚ :=
      if 0 < elapsed then
        s.currentTime + elapsed * (if s.playbackRate = 0 then 1 else s.playbackRate)
      else s.currentTime
    { s with currentTime := ct, lastUpdate := now }
  else
    { s with lastUpdate := now }

/-- The per-room body of the 5-second `syncInterval` ticker (part_002 lines
3891-3911): for a playing state it adds the raw elapsed seconds — with no
`playbackRate` factor and no guard against a backward wall clock — and resets
the anchor; a paused state is untouched. -/
def tickRoomState (s : VideoState) (now : ℤ) : VideoState :=
  if s.isPlaying then
    { s with
      currentTime := s.currentTime + ((now - s.lastUpdate : ℤ) : ℚ) / 1000,
      lastUpdate := now }
  else s

/-- A media track entry; the content is carried through unchanged by the
handlers modelled here. -/
structure Track where
  index : ℤ
  codec : String := ""
  language : String := ""
  title : String := ""
  isDefault : Bool := false
  isExternal : Bool := false
deriving DecidableEq

/-- Audio and subtitle track lists for one item. -/
structure Tracks where
  audio : List Track := []
  subtitles : List Track := []
deriving DecidableEq

/-- A stored playlist entry (`videoInfo` produced by `set-playlist`). -/
structure PlaylistItem where
  filename : String
  isExternal : Bool := false
  tracks : Tracks := {}
  selectedAudioTrack : Option ℤ := none
  selectedSubtitleTrack : Option ℤ := none
  usesHEVC : Bool := false
deriving DecidableEq

/-- The per-room playlist record. -/
structure Playlist where
  videos : List PlaylistItem
  currentIndex : ℤ
  mainVideoIndex : ℤ
  mainVideoStartTime : ℚ
  preloadMainVideo : Bool
deriving DecidableEq

/-- A viewer entry in `room.clients` (`socketId -> { fingerprint, name, connectedAt }`). -/
structure ClientInfo where
  fingerprint : String
  name : String
  connectedAt : String := ""
deriving DecidableEq

/-- One file reported by a viewer in `bsl-folder-selected`
(`{name, size, type}`; `size` and `type` may be absent). -/
structure ClientFile where
  name : String
  size : Option ℤ := none
  type : Option String := none
deriving DecidableEq

/-- A viewer entry of the per-room BSL index (`clientBslStatus`). -/
structure BslStatus where
  clientId : String
  clientName : String
  folderSelected : Bool
  files : List ClientFile
  matchedVideos : List (ℤ × String)
deriving DecidableEq

/-- A room (the `Room` class of part_002 lines 1048-1090). -/
structure Room where
  code : String
  name : String
  isPrivate : Bool
  createdAt : String
  adminFingerprint : Option String
  adminSocketId : Option String
  clients : List (String × ClientInfo)
  playlist : Playlist
  videoState : VideoState
  clientBslStatus : List (String × BslStatus)
  clientDriftValues : List (String × List (ℤ × ℤ))
deriving DecidableEq

/-- The `Room` constructor: empty playlist with `currentIndex = -1`, and a
video state that starts with `isPlaying = true`, position 0 and the anchor at
construction time. -/
def Room.new (code nm : String) (isPrivate : Bool) (adminFingerprint : Option String)
    (createdAt : String) (now : ℤ) : Room :=
  { code := code
    name := nm
    isPrivate := isPrivate
    createdAt := createdAt
    adminFingerprint := adminFingerprint
    adminSocketId := none
    clients := []
    playlist :=
      { videos := []
        currentIndex := -1
        mainVideoIndex := -1
        mainVideoStartTime := 0
        preloadMainVideo := false }
    videoState :=
      { isPlaying := true
        currentTime := 0
        lastUpdate := now
        audioTrack := 0
        subtitleTrack := -1
        playbackRate := 1 }
    clientBslStatus := []
    clientDriftValues := [] }

/-- The legacy-mode boot value of the global `videoState` (part_002 lines
1510-1517): identical shape, also `isPlaying = true`. -/
def initialLegacyVideoState (now : ℤ) : VideoState :=
  { isPlaying := true
    currentTime := 0
    lastUpdate := now
    audioTrack := 0
    subtitleTrack := -1
    playbackRate := 1 }

/-- The legacy-mode boot value of the global `PLAYLIST`. -/
def initialLegacyPlaylist : Playlist :=
  { videos := []
    currentIndex := -1
    mainVideoIndex := -1
    mainVideoStartTime := 0
    preloadMainVideo := false }

/-- The configuration values the modelled handlers read. -/
structure Config where
  serverMode : Bool := true
  videoAutoplay : Bool := false
  clientControlsDisabled : Bool := false
  clientSyncDisabled : Bool := false
  skipSeconds : ℚ := 5
  adminFingerprintLock : Bool := false
  bslAdvancedMatch : Bool := true
  bslAdvancedMatchThreshold : ℕ := 1
  bslMode : String := "any"
deriving DecidableEq

/-- Where an emitted event is delivered: `socket.emit` / `io.to(socketId)`
target one connection; `io.to(roomCode)` targets the room's broadcast group. -/
inductive EmitTarget where
  | toSocket (id : String)
  | toRoom (code : String)
deriving DecidableEq

/-- An entry of the admin `bsl-status-update` payload (`clientStatuses`). -/
structure ClientStatusOut where
  socketId : String
  clientId : String
  clientName : String
  folderSelected : Bool
  files : List ClientFile
  matchedVideos : List (ℤ × String)
  driftValues : List (ℤ × ℤ)
deriving DecidableEq

/-- A per-item aggregate of the admin `bsl-status-update` payload. -/
structure VideoBslOut where
  bslActive : Bool
  clientsWithMatch : ℕ
  clientsWithoutMatch : ℕ
  totalChecked : ℕ
deriving DecidableEq

/-- Payloads of the emitted events the modelled handlers produce. -/
inductive Payload where
  | sync (state : VideoState)
  | playlistUpdate (playlist : Playlist)
  | adminError (event message : String)
  | playlistSet (success : Bool) (message : String)
  | driftUpdate (driftValues : List (ℤ × ℤ))
  | matchResult (matchedVideos : List (ℤ × String)) (totalMatched totalPlaylist : ℕ)
  | bslStatusUpdate (mode : String) (clients : List ClientStatusOut)
      (videoBslStatus : List (ℤ × VideoBslOut))
deriving DecidableEq

/-- One emitted event. -/
structure Emission where
  target : EmitTarget
  event : String
  payload : Payload
deriving DecidableEq

/-- One firing of the global `syncInterval` (server mode): every playing
room's state is folded by `tickRoomState`; the tick emits nothing. -/
def syncIntervalTick (roomsL : List Room) (now : ℤ) : List Room × List Emission :=
  (roomsL.map (fun r => { r with videoState := tickRoomState r.videoState now }), [])

/-- Source `validateCurrentTime(time)`: a finite number that is `≥ 0`; an
absent field fails the check (`isValidNumber(undefined)` is false). -/
def validateCurrentTimeOpt (t : Option ℚ) : Bool :=
  match t with
  | some q => decide (0 ≤ q)
  | none => false

/-- Source `validateTrackIndex(index)`: an integer `≥ -1`; an absent field
fails the check. -/
def validateTrackIndexOpt (t : Option ℤ) : Bool :=
  match t with
  | some i => decide (-1 ≤ i)
  | none => false

/-- Source `validateDriftSeconds(drift)` = `isInRange(drift, -60, 60)`: a
number in `[-60, 60]`; an absent field fails the check. -/
def validateDriftSecondsOpt (d : Option ℚ) : Bool :=
  match d with
  | some q => decide (-60 ≤ q ∧ q ≤ 60)
  | none => false

/-- The payload of a `control` event; absent JS fields are `none`. -/
structure ControlData where
  action : Option String := none
  state : Option Bool := none
  currentTime : Option ℚ := none
  time : Option ℚ := none
  direction : Option String := none
  seconds : Option ℚ := none
  type : Option String := none
  trackIndex : Option ℤ := none
  rate : Option ℚ := none
  isPlaying : Option Bool := none
deriving DecidableEq

/-- The server-mode branch of `socket.on('control')` (part_002 lines
2510-2590), after the target room has been resolved from `socketRoomMap`.
Early `return`s (failed validation, controls disabled for a non-admin)
leave the room unchanged and emit nothing.  In assignments that copy a
possibly-absent payload field verbatim (`isPlaying = data.state`,
`playbackRate = data.rate`, the no-action direct state push), an absent
field is modelled by the falsy defaults `false` / `0`. -/
def handleControl (cfg : Config) (room : Room) (socketId : String)
    (d : ControlData) (now : ℤ) : Room × List Emission :=
  if d.currentTime.isSome ∧ validateCurrentTimeOpt d.currentTime = false then
    (room, [])
  else if d.action = some "seek" ∧ validateCurrentTimeOpt d.time = false then
    (room, [])
  else if d.action = some "selectTrack" ∧ validateTrackIndexOpt d.trackIndex = false then
    (room, [])
  else
    let isAdmin : Bool := room.adminSocketId = some socketId
    if cfg.clientControlsDisabled ∧ isAdmin = false then
      (room, [])
    else
      match d.action with
      | some a =>
        if a = "playpause" then
          let vs := consolidateTime room.videoState now
          let vs := { vs with isPlaying := d.state.getD false }
          ({ room with videoState := vs }, [⟨.toRoom room.code, "sync", .sync vs⟩])
        else if a = "skip" then
          let vs := consolidateTime room.videoState now
          let dir : ℚ := if d.direction = some "forward" then 1 else -1
          let vs := { vs with
            currentTime := max 0 (vs.currentTime + dir * jsOrRat d.seconds cfg.skipSeconds) }
          ({ room with videoState := vs }, [⟨.toRoom room.code, "sync", .sync vs⟩])
        else if a = "seek" then
          let vs := { room.videoState with
            currentTime := d.time.getD 0, lastUpdate := now }
          ({ room with videoState := vs }, [⟨.toRoom room.code, "sync", .sync vs⟩])
        else if a = "selectTrack" then
          let vs := consolidateTime room.videoState now
          let vs :=
            if d.type = some "audio" then { vs with audioTrack := d.trackIndex.getD 0 }
            else if d.type = some "subtitle" then { vs with subtitleTrack := d.trackIndex.getD 0 }
            else vs
          ({ room with videoState := vs }, [⟨.toRoom room.code, "sync", .sync vs⟩])
        else if a = "rate" then
          let vs := consolidateTime room.videoState now
          let vs := { vs with playbackRate := d.rate.getD 0 }
          ({ room with videoState := vs }, [⟨.toRoom room.code, "sync", .sync vs⟩])
        else
          (room, [])
      | none =>
        let vs : VideoState :=
          { isPlaying := d.isPlaying.getD false
            currentTime := d.currentTime.getD 0
            lastUpdate := now
            audioTrack := room.videoState.audioTrack
            subtitleTrack := room.videoState.subtitleTrack
            playbackRate := room.videoState.playbackRate }
        ({ room with videoState := vs }, [⟨.toRoom room.code, "sync", .sync vs⟩])

/-- One entry of the `set-playlist` payload's `playlist` array, as consumed
by the handler. -/
structure ItemData where
  filename : String
  isExternal : Bool := false
  selectedAudioTrack : Option ℤ := none
  selectedSubtitleTrack : Option ℤ := none
deriving DecidableEq

/-- The `set-playlist` payload. -/
structure SetPlaylistData where
  playlist : List ItemData
  mainVideoIndex : ℤ
  startTime : ℚ
deriving DecidableEq

/-- The per-item body of the `set-playlist` loop: spread the incoming item,
fill `tracks` from the metadata adapter for non-external items (a probe
failure, modelled by `none`, yields empty tracks), and set the `usesHEVC`
flag from the `.mkv` extension.  `tracksFor` models `getTracksForFile`. -/
def processItem (tracksFor : String → Option Tracks) (item : ItemData) : PlaylistItem :=
  { filename := item.filename
    isExternal := item.isExternal
    tracks := if item.isExternal then {} else (tracksFor item.filename).getD {}
    selectedAudioTrack := item.selectedAudioTrack
    selectedSubtitleTrack := item.selectedSubtitleTrack
    usesHEVC := strEndsWith item.filename ".mkv" }

/-- The server-mode branch of `socket.on('set-playlist')` (part_002 lines
2879-2985), after room resolution.  A non-admin sender gets a failing
`playlist-set` ack and nothing changes.  Otherwise the playlist is replaced,
`currentIndex` is set to `0` unconditionally, `mainVideoIndex` and the start
time are copied unvalidated, the track selections of the first item (if any)
seed the video state, `isPlaying` is set to the `VIDEO_AUTOPLAY` config, and
`playlist-update`, `sync` and a success ack are emitted.  The extra re-pause
that `setTimeout` schedules when autoplay is off is modelled separately by
`setPlaylistDeferredRepause`. -/
def handleSetPlaylist (cfg : Config) (tracksFor : String → Option Tracks)
    (room : Room) (socketId : String) (d : SetPlaylistData) (now : ℤ) :
    Room × List Emission :=
  if room.adminSocketId ≠ some socketId then
    (room, [⟨.toSocket socketId, "playlist-set",
      .playlistSet false "Only admins can set the playlist"⟩])
  else
    let processed := d.playlist.map (processItem tracksFor)
    let pl : Playlist :=
      { videos := processed
        currentIndex := 0
        mainVideoIndex := d.mainVideoIndex
        mainVideoStartTime := d.startTime
        preloadMainVideo := true }
    let vs0 := room.videoState
    let vs1 :=
      match processed with
      | [] => vs0
      | v :: _ =>
        { vs0 with
          audioTrack := v.selectedAudioTrack.getD 0
          subtitleTrack := v.selectedSubtitleTrack.getD (-1) }
    let vs2 := { vs1 with currentTime := jsOrRat (some d.startTime) 0, lastUpdate := now }
    let vs3 := { vs2 with isPlaying := cfg.videoAutoplay }
    ({ room with playlist := pl, videoState := vs3 },
      [⟨.toRoom room.code, "playlist-update", .playlistUpdate pl⟩,
       ⟨.toRoom room.code, "sync", .sync vs3⟩,
       ⟨.toSocket socketId, "playlist-set",
         .playlistSet true
           (if cfg.videoAutoplay then "Playlist launched - playing!"
            else "Playlist launched - paused (autoplay disabled)")⟩])

/-- The 500 ms `setTimeout` callback registered by `set-playlist` when
`VIDEO_AUTOPLAY` is off: it forces `isPlaying` to `false` again and re-emits
`sync`. -/
def setPlaylistDeferredRepause (cfg : Config) (room : Room) : Room × List Emission :=
  if cfg.videoAutoplay then (room, [])
  else
    let vs := { room.videoState with isPlaying := false }
    ({ room with videoState := vs }, [⟨.toRoom room.code, "sync", .sync vs⟩])

/-- Source `sendBslStatusToAdmin(roomCode)` (part_002 lines 3760-3833),
server-mode branch: when the room has an admin connection, build the
consolidated per-client statuses and the per-item aggregate (mode `all`:
every reporting client matched; mode `any`: at least one), and emit one
`bsl-status-update` to the admin.  `displayNames` models the global
`clientDisplayNames` map. -/
def sendBslStatusToAdmin (cfg : Config) (displayNames : List (String × String))
    (room : Room) : List Emission :=
  match room.adminSocketId with
  | none => []
  | some adminId =>
    let clientStatuses : List ClientStatusOut :=
      room.clientBslStatus.map (fun p =>
        { socketId := p.1
          clientId := p.2.clientId
          clientName := jsOrStr (lookupA displayNames p.2.clientId) (takeRight p.2.clientId 4)
          folderSelected := p.2.folderSelected
          files := p.2.files
          matchedVideos := p.2.matchedVideos
          driftValues := (lookupA room.clientDriftValues p.2.clientId).getD [] })
    let videoBslStatus : List (ℤ × VideoBslOut) :=
      room.playlist.videos.enum.map (fun q =>
        let idx : ℤ := q.1
        let withMatch := room.clientBslStatus.filter
          (fun p => jsOrStr (lookupA p.2.matchedVideos idx) "" ≠ "")
        let withoutMatch := room.clientBslStatus.filter
          (fun p => jsOrStr (lookupA p.2.matchedVideos idx) "" = "" ∧ p.2.folderSelected)
        let totalClients := room.clientBslStatus.length
        let bslActive : Bool :=
          if cfg.bslMode = "all" then
            decide (0 < totalClients ∧ withMatch.length = totalClients)
          else decide (0 < withMatch.length)
        (idx,
          { bslActive := bslActive
            clientsWithMatch := withMatch.length
            clientsWithoutMatch := withoutMatch.length
            totalChecked := withMatch.length + withoutMatch.length }))
    Emission.mk (.toSocket adminId) "bsl-status-update"
      (.bslStatusUpdate cfg.bslMode clientStatuses videoBslStatus) :: []

/-- JS `name.substring(name.lastIndexOf('.'))`: the extension including the
dot; when the name has no dot, `lastIndexOf` is `-1` and `substring` returns
the whole string. -/
def extOf (s : String) : String :=
  if s.toList.contains '.' then
    String.mk ('.' :: (s.toList.reverse.takeWhile (fun c => c ≠ '.')).reverse)
  else s

/-- The fixed extension-to-MIME table of the advanced matcher. -/
def bslMimeMap (ext : String) : Option String :=
  if ext = ".mp4" then some "video/mp4"
  else if ext = ".mkv" then some "video/x-matroska"
  else if ext = ".webm" then some "video/webm"
  else if ext = ".avi" then some "video/x-msvideo"
  else if ext = ".mov" then some "video/quicktime"
  else if ext = ".wmv" then some "video/x-ms-wmv"
  else if ext = ".mp3" then some "audio/mpeg"
  else if ext = ".png" then some "image/png"
  else if ext = ".jpg" then some "image/jpeg"
  else if ext = ".jpeg" then some "image/jpeg"
  else if ext = ".webp" then some "image/webp"
  else none

/-- JS `mime.split('/')[0]`: the prefix before the first slash (the whole
string when there is none, the empty string for the empty string). -/
def mimeTop (m : String) : String :=
  String.mk (m.toList.takeWhile (fun c => c ≠ '/'))

/-- The 0-4 advanced match score of one client file against one playlist
filename (the body of the `BSL_ADVANCED_MATCH` branch of
`bsl-folder-selected`, part_002 lines 3444-3500): +1 for case-insensitive
name equality, +1 for extension equality, +1 when the reported size is
within 1.5 MiB of the server file's size (skipped when the report has no
size or the server `stat` fails, modelled by `serverSize` returning `none`),
and +1 when a non-empty reported MIME equals the extension-derived MIME or
starts with its top-level type (note `startsWith` of the empty top-level
type is vacuously true, so an unknown server extension passes this
criterion for any non-empty reported MIME). -/
def advancedMatchScore (serverSize : String → Option ℤ) (file : ClientFile)
    (serverName : String) : ℕ :=
  let serverExt := strLower (extOf serverName)
  (if strLower file.name = strLower serverName then 1 else 0)
  + (if strLower (extOf file.name) = serverExt then 1 else 0)
  + (match file.size, serverSize serverName with
     | some cs, some ss => if (cs - ss).natAbs ≤ 1572864 then 1 else 0
     | _, _ => 0)
  + (match file.type with
     | some t =>
       if t ≠ "" then
         let expectedMime := (bslMimeMap serverExt).getD ""
         if t = expectedMime ∨ strStartsWith t (mimeTop expectedMime) = true then 1 else 0
       else 0
     | none => 0)

/-- The inner `targetPlaylist.videos.forEach((playlistVideo, index) => ...)`
of the auto-matcher, walking the playlist suffix `videos` starting at
position `idx`, for one reported `file`.  Per item: a persisted match for
this client wins and skips the other checks; otherwise the advanced score is
compared to the threshold (advanced mode) or the lowercased names are
compared (simple mode). -/
def bslMatchFile (cfg : Config) (serverSize : String → Option ℤ)
    (clientMatches : List (String × String)) (file : ClientFile) :
    List (ℤ × String) → ℕ → List PlaylistItem → List (ℤ × String)
  | m, _, [] => m
  | m, idx, v :: rest =>
    let m' :=
      if lookupA clientMatches (strLower file.name) = some (strLower v.filename) then
        setA m (idx : ℤ) file.name
      else if cfg.bslAdvancedMatch then
        if cfg.bslAdvancedMatchThreshold ≤ advancedMatchScore serverSize file v.filename then
          setA m (idx : ℤ) file.name
        else m
      else if strLower file.name = strLower v.filename then
        setA m (idx : ℤ) file.name
      else m
    bslMatchFile cfg serverSize clientMatches file m' (idx + 1) rest

/-- The auto-match block of `bsl-folder-selected`: over every reported file,
over every playlist item (skipped entirely when the playlist is empty),
accumulating `matchedVideos`. -/
def bslAutoMatch (cfg : Config) (serverSize : String → Option ℤ)
    (clientMatches : List (String × String)) (videos : List PlaylistItem)
    (files : List ClientFile) : List (ℤ × String) :=
  if 0 < videos.length then
    files.foldl (fun m file => bslMatchFile cfg serverSize clientMatches file m 0 videos) []
  else []

/-- The `bsl-folder-selected` payload. -/
structure FolderSelectedData where
  clientId : Option String := none
  clientName : Option String := none
  files : List ClientFile
deriving DecidableEq

/-- The server-mode branch of `socket.on('bsl-folder-selected')` (part_002
lines 3406-3543), after room resolution: resolve the persistent client id
(`data.clientId || socket.id`), auto-match the reported files against the
playlist using this client's persisted matches (`persistedMatches` models
the global `persistentBslMatches`), store the BSL status under the sender's
socket id, push the consolidated status to the admin, and return the match
result to the sender. -/
def handleBslFolderSelected (cfg : Config) (serverSize : String → Option ℤ)
    (persistedMatches : List (String × List (String × String)))
    (displayNames : List (String × String)) (room : Room) (socketId : String)
    (d : FolderSelectedData) : Room × List Emission :=
  let clientId := jsOrStr d.clientId socketId
  let clientMatches := (lookupA persistedMatches clientId).getD []
  let matched := bslAutoMatch cfg serverSize clientMatches room.playlist.videos d.files
  let status : BslStatus :=
    { clientId := clientId
      clientName := jsOrStr d.clientName (takeRight clientId 6)
      folderSelected := true
      files := d.files
      matchedVideos := matched }
  let room1 := { room with clientBslStatus := setA room.clientBslStatus socketId status }
  (room1,
    sendBslStatusToAdmin cfg displayNames room1
      ++ [⟨.toSocket socketId, "bsl-match-result",
            .matchResult matched matched.length room.playlist.videos.length⟩])

/-- The `bsl-manual-match` payload. -/
structure ManualMatchData where
  clientSocketId : String
  clientFileName : String
  playlistIndex : ℤ
deriving DecidableEq

/-- Source `setBslMatch(clientId, clientFileName, playlistFileName)`: store
`fingerprint -> clientFileName(lowercase) -> playlistFileName(lowercase)` in
the persisted match memory. -/
def setBslMatch (store : List (String × List (String × String)))
    (clientId lcClient lcServer : String) : List (String × List (String × String)) :=
  setA store clientId (setA ((lookupA store clientId).getD []) lcClient lcServer)

/-- The server-mode branch of `socket.on('bsl-manual-match')` (part_002
lines 3545-3598), after room resolution: only the room admin proceeds; when
the target client has a stored BSL status, the forced mapping is written
into its `matchedVideos` at `playlistIndex` with no range check on the
index; only when `playlistIndex` does name an existing playlist item (and
the client id is truthy) is the mapping persisted.  Returns the new room,
the updated persisted store, and the emissions. -/
def handleBslManualMatch (cfg : Config) (displayNames : List (String × String))
    (store : List (String × List (String × String))) (room : Room)
    (socketId : String) (d : ManualMatchData) :
    Room × List (String × List (String × String)) × List Emission :=
  if room.adminSocketId ≠ some socketId then (room, store, [])
  else
    match lookupA room.clientBslStatus d.clientSocketId with
    | none => (room, store, [])
    | some clientStatus =>
      let matched := setA clientStatus.matchedVideos d.playlistIndex d.clientFileName
      let clientStatus1 := { clientStatus with matchedVideos := matched }
      let store1 :=
        match (if 0 ≤ d.playlistIndex then room.playlist.videos.get? d.playlistIndex.toNat
               else none) with
        | some v =>
          if clientStatus.clientId ≠ "" then
            setBslMatch store clientStatus.clientId (strLower d.clientFileName)
              (strLower v.filename)
          else store
        | none => store
      let room1 :=
        { room with clientBslStatus := setA room.clientBslStatus d.clientSocketId clientStatus1 }
      (room1, store1,
        Emission.mk (.toSocket d.clientSocketId) "bsl-match-result"
            (.matchResult matched matched.length room.playlist.videos.length)
          :: sendBslStatusToAdmin cfg displayNames room1)

/-- The `bsl-set-drift` payload. -/
structure SetDriftData where
  clientFingerprint : Option String := none
  playlistIndex : Option ℤ := none
  driftSeconds : Option ℚ := none
deriving DecidableEq

/-- The server-mode branch of `socket.on('bsl-set-drift')` (part_002 lines
3611-3672), after room resolution: only the room admin proceeds; the
fingerprint must be a non-empty string, the playlist index an integer
`≥ 0`, and the drift must pass `validateDriftSeconds` (in `[-60, 60]`) —
any failure returns with nothing stored and nothing emitted.  The accepted
drift is `parseInt`-truncated, (redundantly) clamped, stored in the room's
drift table, pushed as `bsl-drift-update` to every connection of that
fingerprint in the room, and the admin status is refreshed. -/
def handleBslSetDrift (cfg : Config) (displayNames : List (String × String))
    (room : Room) (socketId : String) (d : SetDriftData) : Room × List Emission :=
  if room.adminSocketId ≠ some socketId then (room, [])
  else
    match d.clientFingerprint with
    | none => (room, [])
    | some fp =>
      if fp = "" then (room, [])
      else
        match d.playlistIndex with
        | none => (room, [])
        | some idx =>
          if idx < 0 then (room, [])
          else if validateDriftSecondsOpt d.driftSeconds = false then (room, [])
          else
            let dr := d.driftSeconds.getD 0
            let clampedDrift : ℤ := max (-60) (min 60 (ratTrunc dr))
            let clientDrifts := (lookupA room.clientDriftValues fp).getD []
            let clientDrifts1 := setA clientDrifts idx clampedDrift
            let room1 :=
              { room with clientDriftValues := setA room.clientDriftValues fp clientDrifts1 }
            let notify : List Emission :=
              room.clients.filterMap (fun p =>
                if p.2.fingerprint = fp then
                  some ⟨.toSocket p.1, "bsl-drift-update", .driftUpdate clientDrifts1⟩
                else none)
            (room1, notify ++ sendBslStatusToAdmin cfg displayNames room1)

/-- The source's `ADMIN_ONLY_EVENTS` whitelist (part_002 lines 2112-2128),
verbatim and in order; note it also lists `bsl-admin-register` and
`create-room`, which the middleware then exempts. -/
def ADMIN_ONLY_EVENTS : List String :=
  ["set-playlist", "playlist-reorder", "playlist-jump", "track-change",
   "skip-to-next-video", "bsl-admin-register", "bsl-check-request",
   "bsl-get-status", "bsl-manual-match", "bsl-set-drift", "set-client-name",
   "get-client-list", "set-client-display-name", "delete-room", "create-room"]

/-- Source `isSocketAdmin(socketId)` (part_002 lines 2129-2144).  In server
mode the socket's room (the composite of `socketRoomMap.get` and `getRoom`,
modelled by `roomOf`) must exist and name the socket as its admin; in legacy
mode everyone is an admin unless `ADMIN_FINGERPRINT_LOCK` is on, in which
case the socket must be in `verifiedAdminSockets`. -/
def isSocketAdmin (serverMode adminLock : Bool) (roomOf : Option Room)
    (verifiedAdminSockets : List String) (socketId : String) : Bool :=
  if serverMode then
    match roomOf with
    | none => false
    | some room => room.adminSocketId = some socketId
  else if adminLock = false then true
  else verifiedAdminSockets.contains socketId

/-- The outcome of the `socket.use` authorization middleware: either the
packet is passed on (`next`) or it is blocked, with the emissions produced
while blocking. -/
inductive MiddlewareOutcome where
  | next
  | blocked (emissions : List Emission)
deriving DecidableEq

/-- The `socket.use` admin-authorization middleware (part_002 lines
2146-2171): events on the whitelist are blocked with an `admin-error`
emission unless the sender is an admin, except `create-room` and
`bsl-admin-register`, which always pass; events off the whitelist always
pass. -/
def socketUseAdminAuth (eventName : String) (isAdmin : Bool) (socketId : String) :
    MiddlewareOutcome :=
  if ADMIN_ONLY_EVENTS.contains eventName then
    if eventName = "create-room" ∨ eventName = "bsl-admin-register" then .next
    else if isAdmin = false then
      .blocked [⟨.toSocket socketId, "admin-error",
        .adminError eventName "Unauthorized: Admin access required"⟩]
    else .next
  else .next

/-- An HTTP request as the modelled Express routes see it. -/
structure HttpRequest where
  method : String
  cookieSyncSession : Option String := none
  headerCsrfToken : Option String := none
  bodyCsrf : Option String := none
  bodyPassword : Option String := none
  bodyFilename : Option String := none
  bodyType : Option String := none
  bodyPreset : Option String := none
deriving DecidableEq

/-- One entry of the server's `csrfTokens` map (`sessionId -> {token, expires}`). -/
structure CsrfEntry where
  token : String
  expires : ℤ
deriving DecidableEq

/-- Source `validateCsrfToken(sessionId, token)` (part_002 lines 1453-1457). -/
def validateCsrfToken (tokens : List (String × CsrfEntry)) (now : ℤ)
    (sessionId token : String) : Bool :=
  match lookupA tokens sessionId with
  | none => false
  | some e => if e.expires < now then false else e.token = token

/-- Source `csrfProtection(req, res, next)` (part_002 lines 1460-1475):
safe methods pass; otherwise a missing or invalid
`(sync_session, X-CSRF-Token)` pair answers HTTP 403 (`some 403`), and a
valid pair passes (`none`).  The token may come from the `x-csrf-token`
header or the `_csrf` body field; empty strings are falsy.  NOTE: this
middleware is defined in the source but never installed on any route. -/
def csrfProtection (tokens : List (String × CsrfEntry)) (now : ℤ)
    (req : HttpRequest) : Option ℕ :=
  if req.method = "GET" ∨ req.method = "HEAD" ∨ req.method = "OPTIONS" then none
  else
    let sessionId := jsOrStr req.cookieSyncSession ""
    let token := jsOrStr req.headerCsrfToken (jsOrStr req.bodyCsrf "")
    if sessionId = "" ∨ token = "" ∨ validateCsrfToken tokens now sessionId token = false
    then some 403
    else none

/-- Source `verifyFfmpegAuth(req, res, next)` (part_002 lines 656-674):
with no configured password hash the tools answer 403; a missing password
answers 401, a wrong hash 401; otherwise pass (`none`).  `sha256` models
`crypto.createHash('sha256')...digest('hex')`. -/
def verifyFfmpegAuth (passwordHash : Option String) (sha256 : String → String)
    (req : HttpRequest) : Option (ℕ × String) :=
  match passwordHash with
  | none => some (403, "FFmpeg tools are disabled (no password set)")
  | some h =>
    match req.bodyPassword with
    | none => some (401, "Password required")
    | some p =>
      if p = "" then some (401, "Password required")
      else if sha256 p ≠ h then some (401, "Invalid password")
      else none

/-- One entry of the in-process `ffmpegJobs` queue. -/
structure FfmpegJob where
  id : ℤ
  type : String
  filename : String
  status : String
  progress : ℕ
  startTime : ℤ
  preset : String
deriving DecidableEq

/-- The mutable FFmpeg queue state (`ffmpegJobCounter` and `ffmpegJobs`). -/
structure FfmpegState where
  jobCounter : ℤ
  jobs : List FfmpegJob
deriving DecidableEq

/-- An HTTP JSON response: status code, optional `jobId` of a success body,
optional `error` string. -/
structure HttpResponse where
  status : ℕ
  jobId : Option ℤ := none
  error : Option String := none
deriving DecidableEq

/-- The route `POST /api/ffmpeg/run-preset` as mounted (part_002 line 1006):
its middleware chain is `express.json(), verifyFfmpegAuth` — `csrfProtection`
is NOT part of it (nor mounted with `app.use`), so no CSRF check runs.  On
passing auth, a missing filename answers 400; otherwise the counter is
bumped, a `pending` job is queued (the asynchronous runner then drives its
status), and `{success: true, jobId}` is answered with 200. -/
def runPresetRoute (passwordHash : Option String) (sha256 : String → String)
    (st : FfmpegState) (now : ℤ) (req : HttpRequest) : HttpResponse × FfmpegState :=
  match verifyFfmpegAuth passwordHash sha256 req with
  | some (code, err) => ({ status := code, error := some err }, st)
  | none =>
    if jsOrStr req.bodyFilename "" = "" then
      ({ status := 400, error := some "Filename required" }, st)
    else
      let counter := st.jobCounter + 1
      let job : FfmpegJob :=
        { id := counter
          type := (req.bodyType).getD ""
          filename := jsOrStr req.bodyFilename ""
          status := "pending"
          progress := 0
          startTime := now
          preset := (req.bodyPreset).getD "" }
      ({ status := 200, jobId := some counter }, { jobCounter := counter, jobs := st.jobs ++ [job] })

/-- Modelled from the spec: the legal rate grid `[0.25, 3.0]` stepped by
`0.25` ("rate: float in [0.25, 3.0] stepped by 0.25"), listed explicitly,
used to compare the spec's acceptance condition with the code's behavior. -/
def rateGrid : List ℚ :=
  [1/4, 1/2, 3/4, 1, 5/4, 3/2, 7/4, 2, 9/4, 5/2, 11/4, 3]

/-- Modelled from the spec: the playlist invariant
`-1 ≤ currentIndex < len(items)` with the identical domain for
`mainVideoIndex`. -/
def playlistInvariant (p : Playlist) : Prop :=
  -1 ≤ p.currentIndex ∧ p.currentIndex < (p.videos.length : ℤ) ∧
  -1 ≤ p.mainVideoIndex ∧ p.mainVideoIndex < (p.videos.length : ℤ)

/-- Modelled from the spec: the 13 events the claim lists as admin-only
(the source whitelist minus the two exempted registration events). -/
def claimedAdminOnlyEvents : List String :=
  ["set-playlist", "playlist-reorder", "playlist-jump", "track-change",
   "skip-to-next-video", "bsl-check-request", "bsl-get-status",
   "bsl-manual-match", "bsl-set-drift", "set-client-name",
   "set-client-display-name", "get-client-list", "delete-room"]

/-- Modelled from the spec: "matches reference only valid playlist indices". -/
def bslMatchesIndexValid (videos : List PlaylistItem) (m : List (ℤ × String)) : Prop :=
  ∀ p ∈ m, 0 ≤ p.1 ∧ p.1 < (videos.length : ℤ)

/-- The provenance a stored auto-match entry `p = (index, clientFileName)`
can have, relative to the reported `files`: the index names a playlist item
`v`, and the entry was produced by the persisted-match branch, the
advanced-score branch (advanced mode), or the simple name-equality branch
(simple mode) for some reported file with that name. -/
def MatchGood (cfg : Config) (serverSize : String → Option ℤ)
    (clientMatches : List (String × String)) (videos : List PlaylistItem)
    (files : List ClientFile) (p : ℤ × String) : Prop :=
  0 ≤ p.1 ∧ ∃ v, videos.get? p.1.toNat = some v ∧
    ∃ file ∈ files, file.name = p.2 ∧
      (lookupA clientMatches (strLower file.name) = some (strLower v.filename) ∨
       (cfg.bslAdvancedMatch = true ∧
         cfg.bslAdvancedMatchThreshold ≤ advancedMatchScore serverSize file v.filename) ∨
       (cfg.bslAdvancedMatch = false ∧ strLower file.name = strLower v.filename))

/-- A concrete room used to exercise the BSL manual-match handler: a
one-item playlist and one reporting viewer with no matches yet. -/
def roomBslFixture : Room :=
  { Room.new "ABC234" "r" false none "" 0 with
    adminSocketId := some "a"
    playlist :=
      { videos := [{ filename := "Movie.mkv", usesHEVC := true }]
        currentIndex := 0
        mainVideoIndex := 0
        mainVideoStartTime := 0
        preloadMainVideo := true }
    clientBslStatus :=
      [("s1",
        { clientId := "fp1", clientName := "v1", folderSelected := true,
          files := [], matchedVideos := [] })] }

theorem mem_setA {α β : Type} [DecidableEq α] {l : List (α × β)} {k : α} {v : β}
    {p : α × β} (h : p ∈ setA l k v) : p = (k, v) ∨ (p ∈ l ∧ p.1 ≠ k) := by
  rcases List.mem_cons.mp h with h1 | h1
  · exact Or.inl h1
  · exact Or.inr ⟨(List.mem_filter.mp h1).1, by simpa using (List.mem_filter.mp h1).2⟩

theorem lookupA_setA_self {α β : Type} [DecidableEq α] (l : List (α × β)) (k : α) (v : β) :
    lookupA (setA l k v) k = some v := by
  simp [setA, lookupA]

theorem consolidateTime_playbackRate (s : VideoState) (now : ℤ) :
    (consolidateTime s now).playbackRate = s.playbackRate := by
  unfold consolidateTime
  split <;> rfl

theorem sendBslStatusToAdmin_event (cfg : Config) (dn : List (String × String))
    (r : Room) : ∀ em ∈ sendBslStatusToAdmin cfg dn r, em.event = "bsl-status-update" := by
  intro em hm
  unfold sendBslStatusToAdmin at hm
  rcases h : r.adminSocketId with _ | aid <;> rw [h] at hm
  · simp at hm
  · rcases List.mem_cons.mp hm with h1 | h1
    · rw [h1]
    · simp at h1

/-- C1. The 5-second ticker does NOT perform `consolidate`: at the state
`{isPlaying := true, currentTime := 10, lastUpdate := 0, playbackRate := 2}`
a tick at wall time 5000 ms stores position 15 (elapsed folded in
unscaled), whereas `consolidateTime` — the fold the spec describes — stores
`10 + 2·5 = 20`; the tick itself emits no broadcast. -/
theorem tick_is_not_consolidate_and_emits_nothing :
    (tickRoomState ⟨true, 10, 0, 0, -1, 2⟩ 5000).currentTime = 15 ∧
    (consolidateTime ⟨true, 10, 0, 0, -1, 2⟩ 5000).currentTime = 20 ∧
    ∀ (roomsL : List Room) (now : ℤ), (syncIntervalTick roomsL now).2 = [] := by
  refine ⟨?_, ?_, fun _ _ => rfl⟩
  · norm_num [tickRoomState]
  · norm_num [consolidateTime]

/-- C2. The `csrfProtection` middleware would answer 403 to a mutating POST
with no `(sync_session, X-CSRF-Token)` pair, but it is mounted on no route:
`POST /api/ffmpeg/run-preset` with a correct password and no CSRF data is
answered 200 and appends a job to the queue (state is altered); safe
methods pass the (unmounted) middleware. -/
theorem run_preset_bypasses_csrf :
    csrfProtection [] 0
        { method := "POST", bodyPassword := some "pw", bodyFilename := some "a.mp4",
          bodyType := some "remux", bodyPreset := some "copy" } = some 403 ∧
    runPresetRoute (some "pw") (fun s => s) ⟨0, []⟩ 0
        { method := "POST", bodyPassword := some "pw", bodyFilename := some "a.mp4",
          bodyType := some "remux", bodyPreset := some "copy" } =
      ({ status := 200, jobId := some 1 },
       ⟨1, [⟨1, "remux", "a.mp4", "pending", 0, 0, "copy"⟩]⟩) ∧
    ∀ (tokens : List (String × CsrfEntry)) (now : ℤ) (req : HttpRequest),
      csrfProtection tokens now { req with method := "GET" } = none := by
  refine ⟨by decide, by decide, fun tokens now req => ?_⟩
  simp [csrfProtection]

/-- C10. A freshly constructed room (and the legacy boot state) has
`isPlaying = true` with an empty playlist and `currentIndex = -1`; a ticker
firing strictly after construction advances the stored position of this
idle room; and `set-playlist` (by the admin) is what sets `isPlaying` to the
`VIDEO_AUTOPLAY` configuration value. -/
theorem fresh_room_plays_and_ticks (code nm : String) (priv : Bool)
    (fp : Option String) (iso : String) (t0 t1 : ℤ) (cfg : Config)
    (tracksFor : String → Option Tracks) (sid : String) (d : SetPlaylistData)
    (now : ℤ) :
    (Room.new code nm priv fp iso t0).videoState.isPlaying = true ∧
    (Room.new code nm priv fp iso t0).playlist.videos = [] ∧
    (Room.new code nm priv fp iso t0).playlist.currentIndex = -1 ∧
    (initialLegacyVideoState t0).isPlaying = true ∧
    (t0 < t1 →
      0 < (tickRoomState (Room.new code nm priv fp iso t0).videoState t1).currentTime) ∧
    (handleSetPlaylist cfg tracksFor
        { Room.new code nm priv fp iso t0 with adminSocketId := some sid }
        sid d now).1.videoState.isPlaying = cfg.videoAutoplay := by
  refine ⟨rfl, rfl, rfl, rfl, fun ht => ?_, ?_⟩
  · have hpos : (0 : ℚ) < ((t1 - t0 : ℤ) : ℚ) := by
      exact_mod_cast Int.sub_pos.mpr ht
    simp only [Room.new, tickRoomState, if_pos rfl]
    have := div_pos hpos (by norm_num : (0 : ℚ) < 1000)
    simpa using this
  · simp only [handleSetPlaylist]
    rw [if_neg (by simp)]

/-- Closed witness for the hypotheses of `fresh_room_plays_and_ticks`. -/
theorem fresh_room_plays_and_ticks_witness :
    (0 : ℤ) < 5000 ∧
    0 < (tickRoomState (Room.new "ABC234" "watch" false none "" 0).videoState 5000).currentTime :=
  ⟨by decide,
    (fresh_room_plays_and_ticks "ABC234" "watch" false none "" 0 5000 {}
        (fun _ => none) "s1" ⟨[], -1, 0⟩ 0).2.2.2.2.1 (by decide)⟩

/-- C3 counterexample. The off-grid rate `0.24` sent by the room admin is
NOT rejected: the handler stores it verbatim, changing the playback rate
from its initial `1` to `0.24`. -/
theorem rate_offgrid_accepted :
    (handleControl {}
        { Room.new "ABC234" "r" false none "" 0 with adminSocketId := some "a" }
        "a" { action := some "rate", rate := some (24/100) } 1000).1.videoState.playbackRate
      = 24/100 ∧
    (24/100 : ℚ) ∉ rateGrid ∧
    (Room.new "ABC234" "r" false none "" 0).videoState.playbackRate = 1 := by
  refine ⟨rfl, ?_, rfl⟩
  norm_num [rateGrid]

/-- C3 (amended). A `control` event with action `rate` carries no grid
validation at all: for any rate value `r` the handler consolidates and then
stores `r` verbatim as the playback rate, fanning out `sync`; the
`[0.25, 3.0]`-by-`0.25` grid is enforced only by the admin page's step
buttons, not by the server. -/
theorem rate_set_verbatim (cfg : Config) (room : Room) (sid : String) (r : ℚ)
    (now : ℤ) (hadmin : room.adminSocketId = some sid) :
    handleControl cfg room sid { action := some "rate", rate := some r } now =
      ({ room with videoState := { consolidateTime room.videoState now with playbackRate := r } },
       [⟨.toRoom room.code, "sync",
         .sync { consolidateTime room.videoState now with playbackRate := r }⟩]) := by
  simp [handleControl, hadmin]

/-- Closed witness for the hypothesis of `rate_set_verbatim`. -/
theorem rate_set_verbatim_witness :
    (Room.new "ABC234" "r" false none "" 0 : Room).adminSocketId = none ∧
    handleControl {} { Room.new "ABC234" "r" false none "" 0 with adminSocketId := some "a" }
        "a" { action := some "rate", rate := some (13/4) } 1000 =
      ({ { Room.new "ABC234" "r" false none "" 0 with adminSocketId := some "a" } with
          videoState :=
            { consolidateTime
                ({ Room.new "ABC234" "r" false none "" 0 with
                    adminSocketId := some "a" } : Room).videoState 1000 with
              playbackRate := 13/4 } },
       [⟨.toRoom ({ Room.new "ABC234" "r" false none "" 0 with
            adminSocketId := some "a" } : Room).code, "sync",
         .sync { consolidateTime
                  ({ Room.new "ABC234" "r" false none "" 0 with
                      adminSocketId := some "a" } : Room).videoState 1000 with
                playbackRate := 13/4 }⟩]) :=
  ⟨rfl, rate_set_verbatim {} _ "a" (13/4) 1000 rfl⟩

/-- C7. A `seek` with a negative time is rejected with the room unchanged
and nothing emitted; a `seek` with `t ≥ 0` (sent by the room admin) sets the
position to exactly `t`, sets the anchor to the current wall clock, and fans
out one `sync` event to the room. -/
theorem seek_validation (cfg : Config) (room : Room) (sid : String) (now : ℤ)
    (t : ℚ) (hadmin : room.adminSocketId = some sid) :
    (t < 0 →
      handleControl cfg room sid { action := some "seek", time := some t } now = (room, [])) ∧
    (0 ≤ t →
      handleControl cfg room sid { action := some "seek", time := some t } now =
        ({ room with videoState :=
            { room.videoState with currentTime := t, lastUpdate := now } },
         [⟨.toRoom room.code, "sync",
           .sync { room.videoState with currentTime := t, lastUpdate := now }⟩])) := by
  constructor
  · intro ht
    simp [handleControl, validateCurrentTimeOpt, decide_eq_false (not_le.mpr ht)]
  · intro ht
    simp [handleControl, validateCurrentTimeOpt, decide_eq_true ht, hadmin]

/-- Closed witness for the hypotheses of `seek_validation`: `seek(-1)` is
rejected and `seek(0)` stores position `0`. -/
theorem seek_validation_witness :
    handleControl {} { Room.new "ABC234" "r" false none "" 0 with adminSocketId := some "a" }
        "a" { action := some "seek", time := some (-1) } 1000 =
      ({ Room.new "ABC234" "r" false none "" 0 with adminSocketId := some "a" }, []) ∧
    (handleControl {} { Room.new "ABC234" "r" false none "" 0 with adminSocketId := some "a" }
        "a" { action := some "seek", time := some 0 } 1000).1.videoState.currentTime = 0 :=
  ⟨(seek_validation {} _ "a" 1000 (-1) rfl).1 (by norm_num),
   by rw [(seek_validation {} _ "a" 1000 0 rfl).2 (le_refl 0)]⟩

theorem ratTrunc_clamp_noop (dr : ℚ) (h1 : -60 ≤ dr) (h2 : dr ≤ 60) :
    max (-60) (min 60 (ratTrunc dr)) = ratTrunc dr := by
  have hub : ratTrunc dr ≤ 60 := by
    unfold ratTrunc
    split
    · have := Int.floor_le_floor h2
      have h60 : ⌊(60 : ℚ)⌋ = 60 := by
        rw [show (60 : ℚ) = ((60 : ℤ) : ℚ) by norm_num]
        exact Int.floor_intCast _
      omega
    · have := Int.ceil_le_ceil h2
      have h60 : ⌈(60 : ℚ)⌉ = 60 := by
        rw [show (60 : ℚ) = ((60 : ℤ) : ℚ) by norm_num]
        exact Int.ceil_intCast _
      omega
  have hlb : -60 ≤ ratTrunc dr := by
    unfold ratTrunc
    split
    · have := Int.floor_le_floor h1
      have h60 : ⌊(-60 : ℚ)⌋ = -60 := by
        rw [show (-60 : ℚ) = ((-60 : ℤ) : ℚ) by norm_num]
        exact Int.floor_intCast _
      omega
    · have := Int.ceil_le_ceil h1
      have h60 : ⌈(-60 : ℚ)⌉ = -60 := by
        rw [show (-60 : ℚ) = ((-60 : ℤ) : ℚ) by norm_num]
        exact Int.ceil_intCast _
      omega
  rw [min_eq_right hub, max_eq_right hlb]

/-- C4 counterexample. A `bsl-set-drift` with drift 75 (likewise -100) is
REJECTED by `validateDriftSeconds`, not clamped: the handler returns with
the room unchanged and nothing emitted, so nothing (in particular not 60 or
-60) is stored in the drift table. -/
theorem drift_out_of_range_rejected :
    handleBslSetDrift {} []
        { Room.new "ABC234" "r" false none "" 0 with adminSocketId := some "a" }
        "a" ⟨some "f1", some 0, some 75⟩ =
      ({ Room.new "ABC234" "r" false none "" 0 with adminSocketId := some "a" }, []) ∧
    handleBslSetDrift {} []
        { Room.new "ABC234" "r" false none "" 0 with adminSocketId := some "a" }
        "a" ⟨some "f1", some 0, some (-100)⟩ =
      ({ Room.new "ABC234" "r" false none "" 0 with adminSocketId := some "a" }, []) ∧
    lookupA ((lookupA
        ({ Room.new "ABC234" "r" false none "" 0 with
            adminSocketId := some "a" } : Room).clientDriftValues "f1").getD []) 0 = none := by
  have h75 : validateDriftSecondsOpt (some 75) = false := by
    simp [validateDriftSecondsOpt]
    norm_num
  have hm100 : validateDriftSecondsOpt (some (-100)) = false := by
    simp [validateDriftSecondsOpt]
    norm_num
  refine ⟨?_, ?_, rfl⟩
  · simp [handleBslSetDrift, h75]
  · simp [handleBslSetDrift, hm100]

/-- C4 (amended). `bsl-set-drift` validates the drift against `[-60, 60]`
and rejects out-of-range values outright (room unchanged, nothing emitted);
an in-range drift is stored `parseInt`-truncated, the subsequent clamp being
a no-op on validated input. -/
theorem drift_validated_and_stored (cfg : Config) (dn : List (String × String))
    (room : Room) (sid fp : String) (idx : ℤ) (dr : ℚ)
    (hadmin : room.adminSocketId = some sid) :
    ((dr < -60 ∨ 60 < dr) →
      handleBslSetDrift cfg dn room sid ⟨some fp, some idx, some dr⟩ = (room, [])) ∧
    (fp ≠ "" → 0 ≤ idx → -60 ≤ dr → dr ≤ 60 →
      lookupA ((lookupA (handleBslSetDrift cfg dn room sid
            ⟨some fp, some idx, some dr⟩).1.clientDriftValues fp).getD []) idx
        = some (ratTrunc dr)) := by
  constructor
  · intro hout
    have hv : validateDriftSecondsOpt (some dr) = false := by
      simp only [validateDriftSecondsOpt, decide_eq_false_iff_not]
      rcases hout with h | h
      · exact fun hc => absurd hc.1 (not_le.mpr h)
      · exact fun hc => absurd hc.2 (not_le.mpr h)
    simp [handleBslSetDrift, hv]
  · intro hfp hidx h1 h2
    have hv : validateDriftSecondsOpt (some dr) = true := by
      simp only [validateDriftSecondsOpt, decide_eq_true_iff]
      exact ⟨h1, h2⟩
    simp only [handleBslSetDrift, hadmin]
    rw [if_neg (by simp), if_neg hfp, if_neg (not_lt.mpr hidx), if_neg (by simp [hv])]
    simp only [Option.getD_some, lookupA_setA_self]
    rw [ratTrunc_clamp_noop dr h1 h2]

/-- Closed witness for the hypotheses of `drift_validated_and_stored`. -/
theorem drift_validated_and_stored_witness :
    handleBslSetDrift {} []
        { Room.new "ABC234" "r" false none "" 0 with adminSocketId := some "a" }
        "a" ⟨some "f1", some 2, some 61⟩ =
      ({ Room.new "ABC234" "r" false none "" 0 with adminSocketId := some "a" }, []) ∧
    lookupA ((lookupA (handleBslSetDrift {} []
          { Room.new "ABC234" "r" false none "" 0 with adminSocketId := some "a" }
          "a" ⟨some "f1", some 2, some 60⟩).1.clientDriftValues "f1").getD []) 2
      = some (ratTrunc 60) :=
  ⟨(drift_validated_and_stored {} [] _ "a" "f1" 2 61 rfl).1 (Or.inr (by norm_num)),
   (drift_validated_and_stored {} [] _ "a" "f1" 2 60 rfl).2 (by decide) (by decide)
     (by norm_num) (by norm_num)⟩

/-- C9. `bsl-set-drift` leaves the room's shared playback state and playlist
unchanged, and every `bsl-drift-update` it emits targets a connection of the
given fingerprint inside the room (the only other emission is the admin's
`bsl-status-update`). -/
theorem drift_update_isolated (cfg : Config) (dn : List (String × String))
    (room : Room) (sid : String) (d : SetDriftData) :
    (handleBslSetDrift cfg dn room sid d).1.videoState = room.videoState ∧
    (handleBslSetDrift cfg dn room sid d).1.playlist = room.playlist ∧
    ∀ em ∈ (handleBslSetDrift cfg dn room sid d).2, em.event = "bsl-drift-update" →
      ∃ cid c, em.target = .toSocket cid ∧ (cid, c) ∈ room.clients ∧
        some c.fingerprint = d.clientFingerprint := by
  rcases d with ⟨fpo, idxo, dro⟩
  rcases fpo with _ | fp
  · simp [handleBslSetDrift]
  · rcases idxo with _ | idx
    · simp [handleBslSetDrift]
    · simp only [handleBslSetDrift]
      split
      · simp
      · split
        · simp
        · split
          · simp
          · split
            · simp
            · refine ⟨rfl, rfl, ?_⟩
              intro em hm hev
              rcases List.mem_append.mp hm with hn | ha
              · rcases List.mem_filterMap.mp hn with ⟨p, hp, hpe⟩
                by_cases hf : p.2.fingerprint = fp
                · rw [if_pos hf] at hpe
                  rcases Option.some.inj hpe with rfl
                  exact ⟨p.1, p.2, rfl, hp, by rw [hf]⟩
                · rw [if_neg hf] at hpe
                  exact Option.noConfusion hpe
              · have := sendBslStatusToAdmin_event cfg dn _ em ha
                rw [hev] at this
                exact absurd this (by decide)

/-- C5 counterexample. `set-playlist` with an empty items list sets
`currentIndex` to `0` while `videos` is empty, so the playlist invariant
`-1 ≤ currentIndex < len(items)` does NOT hold afterwards. -/
theorem empty_set_playlist_breaks_invariant :
    ¬ playlistInvariant (handleSetPlaylist {} (fun _ => none)
        { Room.new "ABC234" "r" false none "" 0 with adminSocketId := some "a" }
        "a" ⟨[], -1, 0⟩ 0).1.playlist ∧
    (handleSetPlaylist {} (fun _ => none)
        { Room.new "ABC234" "r" false none "" 0 with adminSocketId := some "a" }
        "a" ⟨[], -1, 0⟩ 0).1.playlist.currentIndex = 0 ∧
    (handleSetPlaylist {} (fun _ => none)
        { Room.new "ABC234" "r" false none "" 0 with adminSocketId := some "a" }
        "a" ⟨[], -1, 0⟩ 0).1.playlist.videos = [] := by
  refine ⟨?_, rfl, rfl⟩
  intro hinv
  have h2 := hinv.2.1
  simp [handleSetPlaylist] at h2

/-- C5 (amended). After an admin `set-playlist`, `currentIndex` is `0`
unconditionally: with a non-empty items list (and a `mainVideoIndex` within
`[-1, len)`, which the handler does not validate) the playlist invariant
holds, but with an empty items list it is violated, since `currentIndex = 0
= len(items)`. -/
theorem set_playlist_invariant (cfg : Config) (tracksFor : String → Option Tracks)
    (room : Room) (sid : String) (d : SetPlaylistData) (now : ℤ)
    (hadmin : room.adminSocketId = some sid) :
    (d.playlist = [] →
      (handleSetPlaylist cfg tracksFor room sid d now).1.playlist.currentIndex = 0 ∧
      ¬ playlistInvariant (handleSetPlaylist cfg tracksFor room sid d now).1.playlist) ∧
    (d.playlist ≠ [] → -1 ≤ d.mainVideoIndex →
      d.mainVideoIndex < (d.playlist.length : ℤ) →
      playlistInvariant (handleSetPlaylist cfg tracksFor room sid d now).1.playlist) := by
  have hres : (handleSetPlaylist cfg tracksFor room sid d now).1.playlist =
      { videos := d.playlist.map (processItem tracksFor)
        currentIndex := 0
        mainVideoIndex := d.mainVideoIndex
        mainVideoStartTime := d.startTime
        preloadMainVideo := true } := by
    simp only [handleSetPlaylist]
    rw [if_neg (by simp [hadmin])]
  constructor
  · intro hempty
    rw [hres]
    refine ⟨rfl, ?_⟩
    intro hinv
    have h2 := hinv.2.1
    rw [hempty] at h2
    simp at h2
  · intro hne hm1 hm2
    rw [hres]
    refine ⟨by norm_num, ?_, hm1, ?_⟩
    · have hpos : 0 < (d.playlist.map (processItem tracksFor)).length := by
        rw [List.length_map]
        exact List.length_pos.mpr hne
      show (0 : ℤ) < ((d.playlist.map (processItem tracksFor)).length : ℤ)
      exact_mod_cast hpos
    · show d.mainVideoIndex < ((d.playlist.map (processItem tracksFor)).length : ℤ)
      rw [List.length_map]
      exact hm2

/-- Closed witness for the hypotheses of `set_playlist_invariant`. -/
theorem set_playlist_invariant_witness :
    playlistInvariant (handleSetPlaylist {} (fun _ => none)
        { Room.new "ABC234" "r" false none "" 0 with adminSocketId := some "a" }
        "a" ⟨[⟨"a.mp4", false, none, none⟩], 0, 0⟩ 0).1.playlist :=
  (set_playlist_invariant {} (fun _ => none) _ "a" ⟨[⟨"a.mp4", false, none, none⟩], 0, 0⟩ 0
      rfl).2 (by decide) (by decide) (by decide)

/-- C6. Every event of the claimed admin-only whitelist sent in server mode
by a socket that is not its room's admin is blocked by the `socket.use`
middleware with an `admin-error` emission (so it is never routed to a
handler), while `create-room` and `bsl-admin-register` pass for any
socket. -/
theorem admin_only_events_blocked (e : String) (room : Room) (sid : String)
    (he : e ∈ claimedAdminOnlyEvents) (hnadm : room.adminSocketId ≠ some sid) :
    socketUseAdminAuth e (isSocketAdmin true false (some room) [] sid) sid =
      .blocked [⟨.toSocket sid, "admin-error",
        .adminError e "Unauthorized: Admin access required"⟩] ∧
    ∀ (b : Bool) (s : String), socketUseAdminAuth "create-room" b s = .next ∧
      socketUseAdminAuth "bsl-admin-register" b s = .next := by
  have hA : isSocketAdmin true false (some room) [] sid = false := by
    simp [isSocketAdmin, hnadm]
  refine ⟨?_, fun b s => ⟨rfl, rfl⟩⟩
  rw [hA]
  fin_cases he <;> rfl

/-- Closed witness for the hypotheses of `admin_only_events_blocked`. -/
theorem admin_only_events_blocked_witness :
    "set-playlist" ∈ claimedAdminOnlyEvents ∧
    (Room.new "ABC234" "r" false none "" 0 : Room).adminSocketId ≠ some "y" ∧
    socketUseAdminAuth "set-playlist"
        (isSocketAdmin true false (some (Room.new "ABC234" "r" false none "" 0)) [] "y") "y" =
      .blocked [⟨.toSocket "y", "admin-error",
        .adminError "set-playlist" "Unauthorized: Admin access required"⟩] :=
  ⟨by decide, by decide,
    (admin_only_events_blocked "set-playlist" (Room.new "ABC234" "r" false none "" 0) "y"
        (by decide) (by decide)).1⟩

theorem foldl_preserve {α β : Type} (P : β → Prop) (f : β → α → β) :
    ∀ (l : List α) (b : β), P b → (∀ (c : β) (a : α), a ∈ l → P c → P (f c a)) →
      P (l.foldl f b) := by
  intro l
  induction l with
  | nil => intro b hb _; exact hb
  | cons a t ih =>
    intro b hb hf
    exact ih (f b a) (hf b a (List.mem_cons_self a t) hb)
      (fun c a2 ha2 => hf c a2 (List.mem_cons_of_mem _ ha2))

theorem bslMatchFile_sound (cfg : Config) (serverSize : String → Option ℤ)
    (clientMatches : List (String × String)) (videos : List PlaylistItem)
    (files : List ClientFile) (file : ClientFile) (hfile : file ∈ files) :
    ∀ (suffix : List PlaylistItem) (idx : ℕ) (m : List (ℤ × String)),
      (∀ j v, suffix.get? j = some v → videos.get? (idx + j) = some v) →
      (∀ p ∈ m, MatchGood cfg serverSize clientMatches videos files p) →
      ∀ p ∈ bslMatchFile cfg serverSize clientMatches file m idx suffix,
        MatchGood cfg serverSize clientMatches videos files p := by
  intro suffix
  induction suffix with
  | nil =>
    intro idx m _ hm p hp
    exact hm p hp
  | cons v rest ih =>
    intro idx m hsw hm p hp
    simp only [bslMatchFile] at hp
    have hv : videos.get? idx = some v := by
      have h0 := hsw 0 v rfl
      simpa using h0
    refine ih (idx + 1) _ ?_ ?_ p hp
    · intro j w hj
      have hj2 := hsw (j + 1) w (by simpa using hj)
      rw [show idx + (j + 1) = idx + 1 + j by omega] at hj2
      exact hj2
    · intro q hq
      have hgood :
          (lookupA clientMatches (strLower file.name) = some (strLower v.filename) ∨
            (cfg.bslAdvancedMatch = true ∧
              cfg.bslAdvancedMatchThreshold ≤ advancedMatchScore serverSize file v.filename) ∨
            (cfg.bslAdvancedMatch = false ∧ strLower file.name = strLower v.filename)) →
          q ∈ setA m (idx : ℤ) file.name →
          MatchGood cfg serverSize clientMatches videos files q := by
        intro hd hq2
        rcases mem_setA hq2 with rfl | ⟨hqm, _⟩
        · refine ⟨Int.natCast_nonneg idx, v, by simpa using hv, file, hfile, rfl, hd⟩
        · exact hm q hqm
      split_ifs at hq with hc1 hc2 hc3 hc4
      · exact hgood (Or.inl hc1) hq
      · exact hgood (Or.inr (Or.inl ⟨hc2, hc3⟩)) hq
      · exact hm q hq
      · exact hgood (Or.inr (Or.inr ⟨by simpa using hc2, hc4⟩)) hq
      · exact hm q hq

theorem bslAutoMatch_sound (cfg : Config) (serverSize : String → Option ℤ)
    (clientMatches : List (String × String)) (videos : List PlaylistItem)
    (files : List ClientFile) :
    ∀ p ∈ bslAutoMatch cfg serverSize clientMatches videos files,
      MatchGood cfg serverSize clientMatches videos files p := by
  unfold bslAutoMatch
  split
  · have main : ∀ (fl : List ClientFile), (∀ f ∈ fl, f ∈ files) →
        ∀ p ∈ fl.foldl
          (fun m file => bslMatchFile cfg serverSize clientMatches file m 0 videos) [],
          MatchGood cfg serverSize clientMatches videos files p := by
      intro fl hsub
      refine foldl_preserve
        (fun m => ∀ p ∈ m, MatchGood cfg serverSize clientMatches videos files p)
        _ fl [] (by simp) ?_
      intro c f hf hc
      exact bslMatchFile_sound cfg serverSize clientMatches videos files f (hsub f hf)
        videos 0 c (fun j w hw => by simpa using hw) hc
    exact main files (fun f hf => hf)
  · intro p hp
    exact absurd hp (List.not_mem_nil p)

/-- C8 (amended). Auto-match entries reference valid playlist indices and
carry a provenance: a persisted match for the reported client file, an
advanced score reaching the threshold (advanced mode), or case-insensitive
filename equality (simple mode).  `bsl-manual-match`, by contrast, stores
the forced mapping without validating `playlistIndex`; when the index is in
range, the mapping is persisted, so the persisted-match branch of the claim
holds for the stored entry. -/
theorem bsl_match_provenance (cfg : Config) (serverSize : String → Option ℤ)
    (clientMatches : List (String × String)) (videos : List PlaylistItem)
    (files : List ClientFile) (dn : List (String × String))
    (store : List (String × List (String × String))) (room : Room)
    (sid : String) (d : ManualMatchData) (st : BslStatus) (v : PlaylistItem) :
    (∀ p ∈ bslAutoMatch cfg serverSize clientMatches videos files,
      (0 ≤ p.1 ∧ p.1 < (videos.length : ℤ)) ∧
      MatchGood cfg serverSize clientMatches videos files p) ∧
    (room.adminSocketId = some sid →
      lookupA room.clientBslStatus d.clientSocketId = some st →
      0 ≤ d.playlistIndex →
      room.playlist.videos.get? d.playlistIndex.toNat = some v →
      st.clientId ≠ "" →
      lookupA ((lookupA (handleBslManualMatch cfg dn store room sid d).2.1 st.clientId).getD [])
          (strLower d.clientFileName) = some (strLower v.filename) ∧
      lookupA ((lookupA (handleBslManualMatch cfg dn store room sid d).1.clientBslStatus
          d.clientSocketId).getD st).matchedVideos d.playlistIndex
        = some d.clientFileName) := by
  constructor
  · intro p hp
    have hg := bslAutoMatch_sound cfg serverSize clientMatches videos files p hp
    refine ⟨⟨hg.1, ?_⟩, hg⟩
    obtain ⟨w, hw, -⟩ := hg.2
    obtain ⟨hlt, -⟩ := List.get?_eq_some.mp hw
    have h0 := hg.1
    omega
  · intro hadm hst hidx hv hcid
    simp only [handleBslManualMatch]
    rw [if_neg (by simp [hadm]), hst]
    simp only [if_pos hidx]
    rw [hv]
    simp only [setBslMatch, if_pos hcid]
    constructor
    · rw [lookupA_setA_self]
      simp only [Option.getD_some, lookupA_setA_self]
    · rw [lookupA_setA_self]
      simp only [Option.getD_some, lookupA_setA_self]

/-- C8 counterexample. `bsl-manual-match` at the out-of-range index 5 of a
one-item playlist stores the mapping `5 -> "local.mkv"` in the viewer's
match map — an entry referencing an invalid playlist index — and persists
nothing. -/
theorem manual_match_stores_invalid_index :
    lookupA (handleBslManualMatch {} [] [] roomBslFixture "a"
        ⟨"s1", "local.mkv", 5⟩).1.clientBslStatus "s1" =
      some { clientId := "fp1", clientName := "v1", folderSelected := true,
             files := [], matchedVideos := [(5, "local.mkv")] } ∧
    ¬ bslMatchesIndexValid roomBslFixture.playlist.videos [(5, "local.mkv")] ∧
    (handleBslManualMatch {} [] [] roomBslFixture "a" ⟨"s1", "local.mkv", 5⟩).2.1 = [] := by
  refine ⟨by decide, ?_, by decide⟩
  intro h
  have h5 := (h (5, "local.mkv") (List.mem_singleton_self _)).2
  simp [roomBslFixture] at h5

/-- Closed witness for the hypotheses of `bsl_match_provenance`. -/
theorem bsl_match_provenance_witness :
    (((0 ≤ (0 : ℤ) ∧ (0 : ℤ) < ([{ filename := "Movie.mkv" }] : List PlaylistItem).length) ∧
        MatchGood {} (fun _ => none) [] [{ filename := "Movie.mkv" }]
          [{ name := "movie.mkv" }] ((0 : ℤ), "movie.mkv"))) ∧
    (lookupA ((lookupA (handleBslManualMatch {} [] [] roomBslFixture "a"
          ⟨"s1", "good.mkv", 0⟩).2.1 "fp1").getD []) (strLower "good.mkv")
        = some (strLower "Movie.mkv") ∧
      lookupA ((lookupA (handleBslManualMatch {} [] [] roomBslFixture "a"
          ⟨"s1", "good.mkv", 0⟩).1.clientBslStatus "s1").getD
            { clientId := "fp1", clientName := "v1", folderSelected := true,
              files := [], matchedVideos := [] }).matchedVideos 0
        = some "good.mkv") :=
  ⟨(bsl_match_provenance {} (fun _ => none) [] [{ filename := "Movie.mkv" }]
      [{ name := "movie.mkv" }] [] [] roomBslFixture "a" ⟨"s1", "good.mkv", 0⟩
      { clientId := "fp1", clientName := "v1", folderSelected := true,
        files := [], matchedVideos := [] } { filename := "Movie.mkv" }).1
      ((0 : ℤ), "movie.mkv")
      (by
        rw [show bslAutoMatch {} (fun _ => none) [] [{ filename := "Movie.mkv" }]
            [{ name := "movie.mkv" }] = [((0 : ℤ), "movie.mkv")] from by decide]
        exact List.mem_singleton_self _),
   (bsl_match_provenance {} (fun _ => none) [] [{ filename := "Movie.mkv" }]
      [{ name := "movie.mkv" }] [] [] roomBslFixture "a" ⟨"s1", "good.mkv", 0⟩
      { clientId := "fp1", clientName := "v1", folderSelected := true,
        files := [], matchedVideos := [] }
      { filename := "Movie.mkv", usesHEVC := true }).2 rfl (by decide) (by decide)
      (by decide) (by decide)⟩

/-- Closed instance of `drift_update_isolated` at a concrete room and event. -/
theorem drift_update_isolated_witness :
    (handleBslSetDrift {} [] roomBslFixture "a" ⟨some "fp1", some 0, some 3⟩).1.videoState
      = roomBslFixture.videoState ∧
    (handleBslSetDrift {} [] roomBslFixture "a" ⟨some "fp1", some 0, some 3⟩).1.playlist
      = roomBslFixture.playlist :=
  ⟨(drift_update_isolated {} [] roomBslFixture "a" ⟨some "fp1", some 0, some 3⟩).1,
   (drift_update_isolated {} [] roomBslFixture "a" ⟨some "fp1", some 0, some 3⟩).2.1⟩

end SyncPlayer
